import Mathlib

/-!
Verification of the playlab-python client (src/playlab_api/client.py).

The development shallowly embeds the parts of the client that the claims
are about: the SSE line-processing loops of PlaylabApp.stream_message and
PlaylabApp.send_message, the URL construction of the message-sending
endpoints, the conversation-id guards of the public operations, and the
state transitions of load_conversation / reset_chat.

Python values appearing on the wire are modelled by the inductive
JsonValue; the standard-library function json.loads is modelled by
jsonLoads, a recursive-descent parser for the JSON grammar that the
client can receive (objects, arrays, strings with the common escapes,
integer and decimal numbers as exact rationals, true/false/null and the
Python extensions NaN/Infinity).  Simplifications of the model, each
noted at its definition: \uXXXX escapes are decoded without surrogate
pairing, and floats are exact rationals rather than IEEE doubles.
-/

namespace Playlab

/-- A JSON value as produced by Python json.loads: null, bool, int,
float (modelled as an exact rational), NaN, +-Infinity, string, list,
or dict (modelled as the ordered list of members; duplicate keys are
resolved last-wins by objGet, as Python dict construction does). -/
inductive JsonValue where
| null
| bool (b : Bool)
| num (n : Int)
| fnum (q : Rat)
| nan
| inf (neg : Bool)
| str (s : String)
| arr (elems : List JsonValue)
| obj (members : List (String × JsonValue))

/-- Python truthiness (bool(v)) of a decoded JSON value: None, False,
0, 0.0, empty string, empty list and empty dict are falsy; NaN and the
infinities are truthy. -/
def pyTruthy : JsonValue → Bool
| .null => false
| .bool b => b
| .num n => decide (n ≠ 0)
| .fnum q => decide (q ≠ 0)
| .nan => true
| .inf _ => true
| .str s => decide (s ≠ "")
| .arr elems => !elems.isEmpty
| .obj members => !members.isEmpty

/-- Python type name of a decoded JSON value, used in error messages. -/
def pyTypeName : JsonValue → String
| .null => "NoneType"
| .bool _ => "bool"
| .num _ => "int"
| .fnum _ => "float"
| .nan => "float"
| .inf _ => "float"
| .str _ => "str"
| .arr _ => "list"
| .obj _ => "dict"

/-- dict.get on the members of a decoded JSON object: the LAST binding
of the key wins, as in Python, where json.loads builds the dict by
inserting members in document order. -/
def objGet (members : List (String × JsonValue)) (k : String) : Option JsonValue :=
  members.foldl (fun acc kv => if kv.1 = k then some kv.2 else acc) none

/-- The whitespace characters accepted between JSON tokens by Python's
json.loads: space, tab, newline, carriage return. -/
def isJsonWs (c : Char) : Bool :=
  c = ' ' || c = '\t' || c = '\n' || c = '\r'

/-- Drop leading JSON whitespace. -/
def skipWs : List Char → List Char
| [] => []
| c :: cs => if isJsonWs c then skipWs cs else c :: cs

/-- Value of a decimal digit character, none for non-digits. -/
def digitVal (c : Char) : Option Nat :=
  if '0' ≤ c && c ≤ '9' then some (c.toNat - 48) else none

/-- Greedily take decimal digits from the front of the character list. -/
def takeDigits : List Char → (List Nat × List Char)
| [] => ([], [])
| c :: cs =>
  match digitVal c with
  | some d =>
    let (ds, rest) := takeDigits cs
    (d :: ds, rest)
  | none => ([], c :: cs)

/-- Fold a digit list into the Nat it denotes (most significant first). -/
def digitsToNat (ds : List Nat) : Nat :=
  ds.foldl (fun a d => a * 10 + d) 0

/-- Value of a hexadecimal digit character, none for others. -/
def hexVal (c : Char) : Option Nat :=
  if '0' ≤ c && c ≤ '9' then some (c.toNat - 48)
  else if 'a' ≤ c && c ≤ 'f' then some (c.toNat - 87)
  else if 'A' ≤ c && c ≤ 'F' then some (c.toNat - 55)
  else none

/-- The left and right brace characters, named to keep JSON text
readable in the model source. -/
def lbraceChar : Char := Char.ofNat 123

/-- Right brace. -/
def rbraceChar : Char := Char.ofNat 125

/-- Decode the body of a JSON string (the part after the opening
quote), returning the decoded characters and the input after the
closing quote.  Strict mode as in json.loads: unescaped control
characters below 0x20 are rejected.  Model simplification: a \uXXXX
escape becomes the scalar Char.ofNat of its code unit without
surrogate-pair combination. -/
def parseStringBody : Nat → List Char → Option (List Char × List Char)
| 0, _ => none
| _, [] => none
| fuel + 1, c :: cs =>
  if c = '"' then some ([], cs)
  else if c = '\\' then
    match cs with
    | [] => none
    | e :: cs2 =>
      if e = 'u' then
        match cs2 with
        | h1 :: h2 :: h3 :: h4 :: cs3 =>
          match hexVal h1, hexVal h2, hexVal h3, hexVal h4 with
          | some a, some b, some c3, some d =>
            match parseStringBody fuel cs3 with
            | some (out, rest) =>
              some (Char.ofNat (((a * 16 + b) * 16 + c3) * 16 + d) :: out, rest)
            | none => none
          | _, _, _, _ => none
        | _ => none
      else
        let decoded : Option Char :=
          if e = '"' then some '"'
          else if e = '\\' then some '\\'
          else if e = '/' then some '/'
          else if e = 'b' then some (Char.ofNat 8)
          else if e = 'f' then some (Char.ofNat 12)
          else if e = 'n' then some '\n'
          else if e = 'r' then some '\r'
          else if e = 't' then some '\t'
          else none
        match decoded with
        | some d =>
          match parseStringBody fuel cs2 with
          | some (out, rest) => some (d :: out, rest)
          | none => none
        | none => none
  else if c.toNat < 32 then none
  else
    match parseStringBody fuel cs with
    | some (out, rest) => some (c :: out, rest)
    | none => none

/-- Assemble a parsed number into a JsonValue, as json.loads does: a
literal with neither fraction nor exponent is a Python int, otherwise a
float (modelled exactly as a rational). -/
def mkNumber (neg : Bool) (ip : Nat) (frac : Option (List Nat)) (ex : Option Int) : JsonValue :=
  match frac, ex with
  | none, none => .num (if neg then -(ip : Int) else (ip : Int))
  | _, _ =>
    let fracDigits := frac.getD []
    let mantissa : Int := (ip * 10 ^ fracDigits.length + digitsToNat fracDigits : Nat)
    let signed : Int := if neg then -mantissa else mantissa
    let base : Rat := (signed : Rat) / ((10 : Rat) ^ fracDigits.length)
    let e := ex.getD 0
    let scaled : Rat :=
      if 0 ≤ e then base * (10 : Rat) ^ e.toNat
      else base / (10 : Rat) ^ (-e).toNat
    .fnum scaled

/-- Parse the optional exponent part of a JSON number. -/
def parseExpPart : List Char → Option (Option Int × List Char)
| [] => some (none, [])
| c :: cs =>
  if c = 'e' || c = 'E' then
    let (neg, cs2) :=
      match cs with
      | s :: cs3 =>
        if s = '-' then (true, cs3)
        else if s = '+' then (false, cs3)
        else (false, s :: cs3)
      | [] => (false, [])
    let (ds, rest) := takeDigits cs2
    if ds.isEmpty then none
    else
      let e : Int := (digitsToNat ds : Int)
      some (some (if neg then -e else e), rest)
  else some (none, c :: cs)

/-- Parse the fraction and exponent parts that may follow the integer
part of a JSON number, and build the value. -/
def parseNumberTail (neg : Bool) (ip : Nat) : List Char → Option (JsonValue × List Char)
| '.' :: cs =>
  let (ds, rest) := takeDigits cs
  if ds.isEmpty then none
  else
    match parseExpPart rest with
    | some (ex, rest2) => some (mkNumber neg ip (some ds) ex, rest2)
    | none => none
| cs =>
  match parseExpPart cs with
  | some (ex, rest) => some (mkNumber neg ip none ex, rest)
  | none => none

/-- Parse a JSON number after an optional leading minus has been
consumed: 0, or a nonzero digit followed by digits, then optional
fraction and exponent (the json.loads NUMBER_RE grammar). -/
def parseNumberBody (neg : Bool) : List Char → Option (JsonValue × List Char)
| [] => none
| c :: cs =>
  if c = '0' then parseNumberTail neg 0 cs
  else
    match digitVal c with
    | some d =>
      let (ds, rest) := takeDigits cs
      parseNumberTail neg (digitsToNat (d :: ds)) rest
    | none => none

mutual

/-- Parse one JSON value from the front of the input (leading
whitespace already skipped).  Fuel decreases on every mutual call; one
unit of fuel is paid per consumed character, so fuel = input length + 2
always suffices. -/
def parseValue : Nat → List Char → Option (JsonValue × List Char)
| 0, _ => none
| _, [] => none
| fuel + 1, c :: cs =>
  if c = '"' then
    match parseStringBody (fuel + 1) cs with
    | some (out, rest) => some (.str (String.mk out), rest)
    | none => none
  else if c = lbraceChar then
    let cs1 := skipWs cs
    match cs1 with
    | [] => none
    | d :: rest1 =>
      if d = rbraceChar then some (.obj [], rest1)
      else
        match parseMembers fuel cs1 with
        | some (ms, rest2) => some (.obj ms, rest2)
        | none => none
  else if c = '[' then
    let cs1 := skipWs cs
    match cs1 with
    | [] => none
    | d :: rest1 =>
      if d = ']' then some (.arr [], rest1)
      else
        match parseElems fuel cs1 with
        | some (vs, rest2) => some (.arr vs, rest2)
        | none => none
  else if c = '-' then
    match cs with
    | 'I' :: 'n' :: 'f' :: 'i' :: 'n' :: 'i' :: 't' :: 'y' :: rest => some (.inf true, rest)
    | _ => parseNumberBody true cs
  else
    match c :: cs with
    | 'n' :: 'u' :: 'l' :: 'l' :: rest => some (.null, rest)
    | 't' :: 'r' :: 'u' :: 'e' :: rest => some (.bool true, rest)
    | 'f' :: 'a' :: 'l' :: 's' :: 'e' :: rest => some (.bool false, rest)
    | 'N' :: 'a' :: 'N' :: rest => some (.nan, rest)
    | 'I' :: 'n' :: 'f' :: 'i' :: 'n' :: 'i' :: 't' :: 'y' :: rest => some (.inf false, rest)
    | _ => parseNumberBody false (c :: cs)

/-- Parse the non-empty member list of a JSON object, consuming the
closing brace. -/
def parseMembers : Nat → List Char → Option (List (String × JsonValue) × List Char)
| 0, _ => none
| _, [] => none
| fuel + 1, c :: cs =>
  if c = '"' then
    match parseStringBody (fuel + 1) cs with
    | some (key, rest1) =>
      match skipWs rest1 with
      | ':' :: rest2 =>
        match parseValue fuel (skipWs rest2) with
        | some (v, rest3) =>
          match skipWs rest3 with
          | ',' :: rest4 =>
            match parseMembers fuel (skipWs rest4) with
            | some (ms, rest5) => some ((String.mk key, v) :: ms, rest5)
            | none => none
          | d :: rest4 =>
            if d = rbraceChar then some ([(String.mk key, v)], rest4) else none
          | [] => none
        | none => none
      | _ => none
    | none => none
  else none

/-- Parse the non-empty element list of a JSON array, consuming the
closing bracket. -/
def parseElems : Nat → List Char → Option (List JsonValue × List Char)
| 0, _ => none
| fuel + 1, cs =>
  match parseValue fuel cs with
  | some (v, rest1) =>
    match skipWs rest1 with
    | ',' :: rest2 =>
      match parseElems fuel (skipWs rest2) with
      | some (vs, rest3) => some (v :: vs, rest3)
      | none => none
    | ']' :: rest2 => some ([v], rest2)
    | _ => none
  | none => none

end

/-- Model of Python json.loads restricted to this client's use: decode
one JSON document from the whole string, allowing leading and trailing
whitespace; any leftover input, or any decode failure, is a
JSONDecodeError, modelled as none. -/
def jsonLoads (s : String) : Option JsonValue :=
  match parseValue (s.length + 2) (skipWs s.data) with
  | some (v, rest) => if skipWs rest = [] then some v else none
  | none => none

/-- Is the first list a leading segment of the second?  Helper for
pyStartsWith. -/
def startsList : List Char → List Char → Bool
| [], _ => true
| _ :: _, [] => false
| a :: as, b :: bs => a = b && startsList as bs

/-- Model of Python str.startswith. -/
def pyStartsWith (s pre : String) : Bool := startsList pre.data s.data

/-- Model of Python string slicing s[n:] (indices are code points in
both languages). -/
def pyDrop (s : String) (n : Nat) : String := String.mk (s.data.drop n)

/-- Does the needle occur as a contiguous run of the haystack?  Model
of the Python substring test (needle in hay). -/
def hasSubstr (needle : List Char) : List Char → Bool
| [] => startsList needle []
| c :: t => startsList needle (c :: t) || hasSubstr needle t

/-- The exceptions the embedded code can raise: the three typed Playlab
errors of client.py (PlaylabAPIError carrying its status_code and
response attributes, the response dict modelled by its error string)
and the Python builtins the code can hit (ValueError in list_messages;
AttributeError when .get is called on a non-dict decoded payload;
TypeError when += concatenates a non-str delta onto a str). -/
inductive PyExc where
| playlabAuthenticationError (msg : String)
| playlabValidationError (msg : String)
| playlabAPIError (msg : String) (statusCode : Option Nat) (response : Option String)
| valueError (msg : String)
| attributeError (msg : String)
| typeError (msg : String)
deriving DecidableEq

/-- Outcome of processing one SSE line inside the streaming loops:
no contribution, one delta chunk, or an uncaught Python exception. -/
inductive LineOutcome where
| skip
| chunk (s : String)
| error (e : PyExc)
deriving DecidableEq

/-- The per-line body of the stream_message loop (client.py lines
463-475): skip falsy lines (if line:), require the data: leader, parse
the remainder with json.loads catching only JSONDecodeError, test
data.get("delta") for truthiness, and contribute data["delta"].  A
payload that decodes to a non-dict raises AttributeError at .get; a
truthy non-str delta raises TypeError at the += concatenation.  Both
escape the try, which catches only JSONDecodeError. -/
def processLine (line : String) : LineOutcome :=
  if line = "" then .skip
  else if pyStartsWith line "data:" then
    match jsonLoads (pyDrop line 5) with
    | none => .skip
    | some (.obj members) =>
      match objGet members "delta" with
      | some v =>
        if pyTruthy v then
          match v with
          | .str s => .chunk s
          | _ => .error (.typeError ("can only concatenate str to str, not " ++ pyTypeName v))
        else .skip
      | none => .skip
    | some v => .error (.attributeError (pyTypeName v ++ " object has no attribute get"))
  else .skip

/-- The per-line body of the send_message stream=True loop (client.py
lines 342-354): identical extraction logic to stream_message, deltas
echoed to the console instead of a callback. -/
def sendStreamStep (line : String) : LineOutcome :=
  if line = "" then .skip
  else if pyStartsWith line "data:" then
    match jsonLoads (pyDrop line 5) with
    | none => .skip
    | some (.obj members) =>
      match objGet members "delta" with
      | some v =>
        if pyTruthy v then
          match v with
          | .str s => .chunk s
          | _ => .error (.typeError ("can only concatenate str to str, not " ++ pyTypeName v))
        else .skip
      | none => .skip
    | some v => .error (.attributeError (pyTypeName v ++ " object has no attribute get"))
  else .skip

/-- The per-line body of the send_message stream=False loop (client.py
lines 378-387): identical extraction logic, deltas only accumulated and
displayed after the body is drained. -/
def sendCollectStep (line : String) : LineOutcome :=
  if line = "" then .skip
  else if pyStartsWith line "data:" then
    match jsonLoads (pyDrop line 5) with
    | none => .skip
    | some (.obj members) =>
      match objGet members "delta" with
      | some v =>
        if pyTruthy v then
          match v with
          | .str s => .chunk s
          | _ => .error (.typeError ("can only concatenate str to str, not " ++ pyTypeName v))
        else .skip
      | none => .skip
    | some v => .error (.attributeError (pyTypeName v ++ " object has no attribute get"))
  else .skip

/-- Result of draining the SSE body in stream_message: the accumulated
full_content together with the sequence of chunks handed to on_chunk,
or the state at the point an uncaught exception aborted the loop. -/
inductive StreamOutcome where
| ok (content : String) (chunks : List String)
| exc (content : String) (chunks : List String) (e : PyExc)
deriving DecidableEq

/-- Result of draining the SSE body in the send_message loops, which
keep no chunk list. -/
inductive SendOutcome where
| ok (content : String)
| exc (content : String) (e : PyExc)
deriving DecidableEq

/-- The stream_message drain loop over the lines of the response body:
full_content starts at acc, the on_chunk invocation list at chunks;
each truthy delta is appended to both, in arrival order. -/
def streamMessageLoop : List String → String → List String → StreamOutcome
| [], acc, chunks => .ok acc chunks
| l :: ls, acc, chunks =>
  match processLine l with
  | .skip => streamMessageLoop ls acc chunks
  | .chunk s => streamMessageLoop ls (acc ++ s) (chunks ++ [s])
  | .error e => .exc acc chunks e

/-- The send_message stream=True drain loop. -/
def sendStreamLoop : List String → String → SendOutcome
| [], acc => .ok acc
| l :: ls, acc =>
  match sendStreamStep l with
  | .skip => sendStreamLoop ls acc
  | .chunk s => sendStreamLoop ls (acc ++ s)
  | .error e => .exc acc e

/-- The send_message stream=False drain loop. -/
def sendCollectLoop : List String → String → SendOutcome
| [], acc => .ok acc
| l :: ls, acc =>
  match sendCollectStep l with
  | .skip => sendCollectLoop ls acc
  | .chunk s => sendCollectLoop ls (acc ++ s)
  | .error e => .exc acc e

/-- Forget the chunk list of a StreamOutcome, for comparing the
stream_message loop with the send_message loops. -/
def contentOutcome : StreamOutcome → SendOutcome
| .ok c _ => .ok c
| .exc c _ e => .exc c e

/-- What the transport does on one message-sending request, as seen by
the client code: a drained body of SSE lines; a body cut off by a
transfer error after some lines (requests raises a RequestException
that is not an HTTPError, with message emsg); a non-2xx status, so
response.raise_for_status raises HTTPError and _handle_api_error reads
the status and the error field of the body; or a connection failure
with no response at all. -/
inductive TransportEvent where
| lines (ls : List String)
| linesThenDrop (ls : List String) (emsg : String)
| httpError (status : Nat) (errorMessage : String)
| connError (emsg : String)

/-- Result of one public call: a returned value or a raised exception. -/
inductive CallResult where
| ok (content : String)
| raised (e : PyExc)
deriving DecidableEq

/-- PlaylabApp._handle_api_error (client.py lines 90-109): 401 raises
PlaylabAuthenticationError, 400 PlaylabValidationError, anything else
PlaylabAPIError carrying the status code and the error body. -/
def handle_api_error (statusCode : Nat) (errorMessage : String) : PyExc :=
  if statusCode = 401 then .playlabAuthenticationError ("Authentication error: " ++ errorMessage)
  else if statusCode = 400 then .playlabValidationError ("Validation error: " ++ errorMessage)
  else .playlabAPIError ("API error: " ++ errorMessage) (some statusCode) (some errorMessage)

/-- The message all conversation-requiring operations use when
self.conversation_id is falsy. -/
def noConversationMsg : String :=
  "No conversation loaded. Please create a new conversation or load an existing one."

/-- PlaylabApp.stream_message (client.py lines 414-481): guard on the
conversation id, issue the POST, drain the body through the SSE loop,
and map transport failures through the except clause (HTTPError goes to
_handle_api_error, any other RequestException becomes a PlaylabAPIError
with no status, no response and no accumulated text attached).  The
second component is the list of arguments passed to on_chunk, in call
order. -/
def stream_message (conversationId : String) (t : TransportEvent) :
    CallResult × List String :=
  if conversationId = "" then
    (.raised (.playlabValidationError noConversationMsg), [])
  else
    match t with
    | .httpError status errorMessage => (.raised (handle_api_error status errorMessage), [])
    | .connError emsg =>
      (.raised (.playlabAPIError ("Failed to stream message: " ++ emsg) none none), [])
    | .lines ls =>
      match streamMessageLoop ls "" [] with
      | .ok c chunks => (.ok c, chunks)
      | .exc _ chunks e => (.raised e, chunks)
    | .linesThenDrop ls emsg =>
      match streamMessageLoop ls "" [] with
      | .ok _ chunks =>
        (.raised (.playlabAPIError ("Failed to stream message: " ++ emsg) none none), chunks)
      | .exc _ chunks e => (.raised e, chunks)

/-- PlaylabApp.send_message, text-only path (client.py lines 321-398):
guard on the conversation id, then either the stream=True loop or the
stream=False collect loop over the same wire format; transport failures
map through the same except clause with the "Failed to send message"
message. -/
def send_message (conversationId : String) (stream : Bool) (t : TransportEvent) : CallResult :=
  if conversationId = "" then
    .raised (.playlabValidationError noConversationMsg)
  else
    match t with
    | .httpError status errorMessage => .raised (handle_api_error status errorMessage)
    | .connError emsg =>
      .raised (.playlabAPIError ("Failed to send message: " ++ emsg) none none)
    | .lines ls =>
      match (if stream then sendStreamLoop ls "" else sendCollectLoop ls "") with
      | .ok c => .ok c
      | .exc _ e => .raised e
    | .linesThenDrop ls emsg =>
      match (if stream then sendStreamLoop ls "" else sendCollectLoop ls "") with
      | .ok _ => .raised (.playlabAPIError ("Failed to send message: " ++ emsg) none none)
      | .exc _ e => .raised e

/-- A message of the listing endpoint: source and content. -/
structure Message where
  source : String
  content : String
deriving DecidableEq

/-- PlaylabApp.list_messages (client.py lines 400-412): an EMPTY
conversation id raises the builtin ValueError (not a Playlab error);
otherwise one GET request is issued whose outcome is the given
transport result.  The second component counts requests issued. -/
def list_messages (conversationId : String)
    (resp : Except PyExc (List Message)) : Except PyExc (List Message) × Nat :=
  if conversationId = "" then (.error (.valueError noConversationMsg), 0)
  else (resp, 1)

/-- PlaylabApp.display_system_prompt (client.py lines 504-524): guard
raising PlaylabValidationError, then list_messages inside a try that
wraps PlaylabAPIError (str(e) is its message) and lets other exceptions
through.  Returns the raised exception, if any, and the request count. -/
def display_system_prompt (conversationId : String)
    (resp : Except PyExc (List Message)) : Option PyExc × Nat :=
  if conversationId = "" then (some (.playlabValidationError noConversationMsg), 0)
  else
    match (list_messages conversationId resp).1 with
    | .error (.playlabAPIError m _ _) =>
      (some (.playlabAPIError ("Failed to display system prompt: " ++ m) none none), 1)
    | .error e => (some e, 1)
    | .ok _ => (none, 1)

/-- The mutable client state the claims touch. -/
structure ClientState where
  conversationId : String
deriving DecidableEq

/-- PlaylabApp.load_conversation (client.py lines 184-212): reject a
falsy id with PlaylabValidationError, otherwise assign
self.conversation_id BEFORE anything else; only when verbose is the
listing fetched (its GET outcome is the resp argument), and a
PlaylabAPIError from it is re-raised wrapped, with the assignment left
in place.  Result: state after the call, raised exception if any,
number of requests issued. -/
def load_conversation (st : ClientState) (verbose : Bool) (conversationId : String)
    (resp : Except PyExc (List Message)) : ClientState × Option PyExc × Nat :=
  if conversationId = "" then (st, some (.playlabValidationError "Invalid conversation ID"), 0)
  else
    let st2 : ClientState := { st with conversationId := conversationId }
    if verbose then
      match (list_messages conversationId resp).1 with
      | .error (.playlabAPIError m _ _) =>
        (st2, some (.playlabAPIError ("Failed to load conversation: " ++ m) none none), 1)
      | .error e => (st2, some e, 1)
      | .ok _ => (st2, none, 1)
    else (st2, none, 0)

/-- PlaylabApp.reset_chat (client.py lines 483-502): create a new
conversation (outcome createResp, the new id on success), assign
self.conversation_id, then list the messages; a PlaylabAPIError from
either step is re-raised wrapped, with any assignment already made left
in place.  Other exceptions pass through unwrapped. -/
def reset_chat (st : ClientState) (createResp : Except PyExc String)
    (resp : Except PyExc (List Message)) : ClientState × Option PyExc :=
  match createResp with
  | .error (.playlabAPIError m _ _) =>
    (st, some (.playlabAPIError ("Failed to reset chat: " ++ m) none none))
  | .error e => (st, some e)
  | .ok newId =>
    let st2 : ClientState := { st with conversationId := newId }
    match (list_messages newId resp).1 with
    | .error (.playlabAPIError m _ _) =>
      (st2, some (.playlabAPIError ("Failed to reset chat: " ++ m) none none))
    | .error e => (st2, some e)
    | .ok _ => (st2, none)

/-- PlaylabApp.BASE_URL. -/
def BASE_URL : String := "https://www.playlab.ai/api/v1"

/-- The message-sending endpoint string built by send_message (line
241) and stream_message (line 442). -/
def messagesEndpoint (projectId conversationId : String) : String :=
  "/projects/" ++ projectId ++ "/conversations/" ++ conversationId ++ "/messages"

/-- Python str.lstrip applied with the slash character: drop every
leading slash. -/
def lstripSlash (s : String) : String :=
  String.mk (s.data.dropWhile (fun c => c = '/'))

/-- Split a URL at its scheme separator, returning the scheme
characters and what follows the three separator characters. -/
def findSchemeSep : List Char → Option (List Char × List Char)
| [] => none
| ':' :: '/' :: '/' :: rest => some ([], rest)
| c :: rest =>
  match findSchemeSep rest with
  | some (a, b) => some (c :: a, b)
  | none => none

/-- The characters of a path up to and including its last slash; empty
when it has no slash. -/
def upToLastSlash (p : List Char) : List Char :=
  ((p.reverse.dropWhile (fun c => c ≠ '/'))).reverse

/-- Model of urllib.parse.urljoin restricted to the reference forms
this client can produce: a url carrying its own scheme replaces the
base; a url beginning with a slash (the case stream_message exercises)
replaces the WHOLE PATH of the base, keeping only its scheme and
network location; a relative url replaces the last path segment.  Query
strings, fragments and dot segments are not modelled, none occurring in
the client. -/
def urljoin (base url : String) : String :=
  match findSchemeSep url.data with
  | some _ => url
  | none =>
    match findSchemeSep base.data with
    | none => url
    | some (scheme, afterScheme) =>
      let netloc := afterScheme.takeWhile (fun c => c ≠ '/')
      let basePath := afterScheme.drop netloc.length
      let head := String.mk (scheme ++ [':', '/', '/'] ++ netloc)
      if pyStartsWith url "/" then head ++ url
      else if url = "" then base
      else if basePath = [] then head ++ "/" ++ url
      else head ++ String.mk (upToLastSlash basePath) ++ url

/-- The URL send_message posts messages to (client.py lines 266 and
330 and 368): f-string concatenation of BASE_URL, a slash and the
endpoint with leading slashes stripped. -/
def sendMessageUrl (projectId conversationId : String) : String :=
  BASE_URL ++ "/" ++ lstripSlash (messagesEndpoint projectId conversationId)

/-- The URL stream_message posts to (client.py line 454):
urljoin(BASE_URL, endpoint). -/
def streamMessageUrl (projectId conversationId : String) : String :=
  urljoin BASE_URL (messagesEndpoint projectId conversationId)

/-- The claim's wording for a contributing line: it begins with data:
and its remainder decodes to a JSON object whose delta field is a
non-empty string; every other line contributes nothing.  This is the
specification-side counterpart the loop embeddings are compared with. -/
def specDeltaOfLine (line : String) : Option String :=
  if pyStartsWith line "data:" then
    match jsonLoads (pyDrop line 5) with
    | some (.obj members) =>
      match objGet members "delta" with
      | some (.str s) => if s = "" then none else some s
      | _ => none
    | _ => none
  else none

/-- Concatenation of a list of strings in order. -/
def concatList : List String → String
| [] => ""
| s :: rest => s ++ concatList rest

/-- The concatenation, in input order, of the delta fields of the
qualifying lines — the text the claims say a drained stream yields. -/
def specConcatDeltas (ls : List String) : String :=
  concatList (ls.filterMap specDeltaOfLine)

/-- The state of one in-flight streaming call for the isolation model:
its accumulated full_content, its on_chunk invocations, and the
exception that aborted it, if any. -/
structure CallState where
  content : String
  chunks : List String
  failure : Option PyExc
deriving DecidableEq

/-- The state a streaming call starts from. -/
def initCall : CallState := { content := "", chunks := [], failure := none }

/-- Feed one line to one in-flight call: after an abort the call
consumes nothing further. -/
def stepCall (st : CallState) (line : String) : CallState :=
  match st.failure with
  | some _ => st
  | none =>
    match processLine line with
    | .skip => st
    | .chunk s => { st with content := st.content ++ s, chunks := st.chunks ++ [s] }
    | .error e => { st with failure := some e }

/-- Run one call over its whole line sequence. -/
def runCall (st : CallState) (ls : List String) : CallState := ls.foldl stepCall st

/-- Joint state of two concurrent streaming calls issued from two
independent client instances.  Each call owns its accumulator; there is
no shared field, mirroring the Python code where full_content is a
local of one invocation. -/
structure PairState where
  c1 : CallState
  c2 : CallState
deriving DecidableEq

/-- One scheduler step: deliver the next line of call one (tag false)
or call two (tag true). -/
def stepPair (st : PairState) : Bool × String → PairState
| (false, l) => { st with c1 := stepCall st.c1 l }
| (true, l) => { st with c2 := stepCall st.c2 l }

/-- Run an arbitrary interleaving of the two calls' lines. -/
def runPair (st : PairState) (sched : List (Bool × String)) : PairState :=
  sched.foldl stepPair st

/-- The lines a schedule delivers to the call with the given tag, in
order. -/
def sideLines (b : Bool) (sched : List (Bool × String)) : List String :=
  (sched.filter (fun p => p.1 = b)).map (fun p => p.2)

/-- Read a finished CallState back as the loop outcome it denotes. -/
def outcomeOfCall (st : CallState) : StreamOutcome :=
  match st.failure with
  | none => .ok st.content st.chunks
  | some e => .exc st.content st.chunks e

/-- Does the decoded payload have a shape the loop body survives: an
object whose delta member, when present and truthy, is a string. -/
def deltaShapeOk : JsonValue → Bool
| .obj members =>
  (match objGet members "delta" with
   | some v => if pyTruthy v then (match v with | .str _ => true | _ => false) else true
   | none => true)
| _ => false

/-- A line is safe when it cannot make the per-line step raise: either
it does not qualify as a data: line, or its payload fails to decode, or
the decoded payload has a survivable shape. -/
def lineSafeB (line : String) : Bool :=
  if pyStartsWith line "data:" then
    match jsonLoads (pyDrop line 5) with
    | none => true
    | some v => deltaShapeOk v
  else true

/-- Is a per-line outcome an uncaught exception? -/
def isErrorOutcome : LineOutcome → Bool
| .error _ => true
| _ => false

lemma sendStreamStep_eq_processLine (l : String) : sendStreamStep l = processLine l := rfl

lemma sendCollectStep_eq_processLine (l : String) : sendCollectStep l = processLine l := rfl

lemma specDeltaOfLine_eq_processLine (l : String) :
    specDeltaOfLine l =
      (match processLine l with | .chunk s => some s | _ => none) := by
  unfold processLine specDeltaOfLine
  by_cases h0 : l = ""
  · subst h0; rfl
  · rw [if_neg h0]
    cases hsw : pyStartsWith l "data:"
    · simp [hsw]
    · simp only [hsw, if_true]
      cases hjl : jsonLoads (pyDrop l 5) with
      | none => simp
      | some v =>
        cases v with
        | obj members =>
          cases hg : objGet members "delta" with
          | none => simp [hg]
          | some w =>
            cases w with
            | str t => by_cases ht : t = "" <;> simp [hg, pyTruthy, ht]
            | null => simp [hg, pyTruthy]
            | bool b => cases b <;> simp [hg, pyTruthy]
            | num n => by_cases hn : n = 0 <;> simp [hg, pyTruthy, hn]
            | fnum q => by_cases hq : q = 0 <;> simp [hg, pyTruthy, hq]
            | nan => simp [hg, pyTruthy]
            | inf neg => simp [hg, pyTruthy]
            | arr xs => cases hxe : xs.isEmpty <;> simp [hg, pyTruthy, hxe]
            | obj ms => cases hme : ms.isEmpty <;> simp [hg, pyTruthy, hme]
        | null => simp
        | bool b => simp
        | num n => simp
        | fnum q => simp
        | nan => simp
        | inf neg => simp
        | str t => simp
        | arr xs => simp

lemma streamMessageLoop_ok (ls : List String) : ∀ (acc c : String) (chunks chunks2 : List String),
    streamMessageLoop ls acc chunks = .ok c chunks2 →
    c = acc ++ specConcatDeltas ls ∧ chunks2 = chunks ++ ls.filterMap specDeltaOfLine := by
  induction ls with
  | nil =>
    intro acc c chunks chunks2 h
    simp only [streamMessageLoop, StreamOutcome.ok.injEq] at h
    simp [← h.1, ← h.2, specConcatDeltas, concatList, String.append_empty]
  | cons l ls ih =>
    intro acc c chunks chunks2 h
    have hfm : (l :: ls).filterMap specDeltaOfLine =
        (match specDeltaOfLine l with
         | some s => s :: ls.filterMap specDeltaOfLine
         | none => ls.filterMap specDeltaOfLine) := by
      cases hd : specDeltaOfLine l <;> simp [List.filterMap_cons, hd]
    cases hp : processLine l with
    | skip =>
      simp only [streamMessageLoop, hp] at h
      have hd : specDeltaOfLine l = none := by
        rw [specDeltaOfLine_eq_processLine, hp]
      obtain ⟨h1, h2⟩ := ih acc c chunks chunks2 h
      refine ⟨?_, ?_⟩
      · rw [h1]; congr 1
        simp [specConcatDeltas, hfm, hd]
      · rw [h2]; congr 1
        simp [hfm, hd]
    | chunk s =>
      simp only [streamMessageLoop, hp] at h
      have hd : specDeltaOfLine l = some s := by
        rw [specDeltaOfLine_eq_processLine, hp]
      obtain ⟨h1, h2⟩ := ih (acc ++ s) c (chunks ++ [s]) chunks2 h
      refine ⟨?_, ?_⟩
      · rw [h1, String.append_assoc]; congr 1
        simp [specConcatDeltas, hfm, hd, concatList]
      · rw [h2, List.append_assoc]; congr 1
        simp [hfm, hd]
    | error e =>
      simp [streamMessageLoop, hp] at h

lemma sendStreamLoop_eq_stream (ls : List String) : ∀ (acc : String) (chunks : List String),
    sendStreamLoop ls acc = contentOutcome (streamMessageLoop ls acc chunks) := by
  induction ls with
  | nil => intro acc chunks; rfl
  | cons l ls ih =>
    intro acc chunks
    simp only [sendStreamLoop, streamMessageLoop, sendStreamStep_eq_processLine]
    cases hp : processLine l with
    | skip => simp only [hp]; exact ih acc chunks
    | chunk s => simp only [hp]; exact ih (acc ++ s) (chunks ++ [s])
    | error e => simp only [hp]; rfl

lemma sendCollectLoop_eq_streamLoop (ls : List String) : ∀ (acc : String),
    sendCollectLoop ls acc = sendStreamLoop ls acc := by
  induction ls with
  | nil => intro acc; rfl
  | cons l ls ih =>
    intro acc
    simp only [sendCollectLoop, sendStreamLoop, sendCollectStep_eq_processLine,
      sendStreamStep_eq_processLine]
    cases hp : processLine l with
    | skip => simp only [hp]; exact ih acc
    | chunk s => simp only [hp]; exact ih (acc ++ s)
    | error e => simp only [hp]

lemma runCall_of_failure (ls : List String) : ∀ (st : CallState) (e : PyExc),
    st.failure = some e → runCall st ls = st := by
  induction ls with
  | nil => intro st e _; rfl
  | cons l ls ih =>
    intro st e hf
    have hstep : stepCall st l = st := by
      unfold stepCall; rw [hf]
    show runCall (stepCall st l) ls = st
    rw [hstep]
    exact ih st e hf

lemma outcomeOf_runCall (ls : List String) : ∀ (st : CallState),
    st.failure = none →
    outcomeOfCall (runCall st ls) = streamMessageLoop ls st.content st.chunks := by
  induction ls with
  | nil =>
    intro st hf
    unfold runCall outcomeOfCall
    rw [List.foldl_nil, hf]
    rfl
  | cons l ls ih =>
    intro st hf
    show outcomeOfCall (runCall (stepCall st l) ls) = streamMessageLoop (l :: ls) st.content st.chunks
    unfold stepCall
    rw [hf]
    simp only [streamMessageLoop]
    cases hp : processLine l with
    | skip => exact ih st hf
    | chunk s =>
      exact ih { content := st.content ++ s, chunks := st.chunks ++ [s], failure := none } rfl
    | error e =>
      rw [runCall_of_failure ls { st with failure := some e } e rfl]
      rfl

lemma runPair_proj (sched : List (Bool × String)) : ∀ (st : PairState),
    (runPair st sched).c1 = runCall st.c1 (sideLines false sched)
    ∧ (runPair st sched).c2 = runCall st.c2 (sideLines true sched) := by
  induction sched with
  | nil => intro st; exact ⟨rfl, rfl⟩
  | cons p sched ih =>
    intro st
    obtain ⟨b, l⟩ := p
    cases b with
    | false =>
      have h1 : sideLines false ((false, l) :: sched) = l :: sideLines false sched := by
        simp [sideLines]
      have h2 : sideLines true ((false, l) :: sched) = sideLines true sched := by
        simp [sideLines]
      rw [h1, h2]
      have hrun : runPair st ((false, l) :: sched)
          = runPair { st with c1 := stepCall st.c1 l } sched := rfl
      rw [hrun]
      obtain ⟨i1, i2⟩ := ih { st with c1 := stepCall st.c1 l }
      exact ⟨i1, i2⟩
    | true =>
      have h1 : sideLines false ((true, l) :: sched) = sideLines false sched := by
        simp [sideLines]
      have h2 : sideLines true ((true, l) :: sched) = l :: sideLines true sched := by
        simp [sideLines]
      rw [h1, h2]
      have hrun : runPair st ((true, l) :: sched)
          = runPair { st with c2 := stepCall st.c2 l } sched := rfl
      rw [hrun]
      obtain ⟨i1, i2⟩ := ih { st with c2 := stepCall st.c2 l }
      exact ⟨i1, i2⟩

lemma stream_message_lines (cid : String) (ls : List String) :
    stream_message cid (.lines ls) =
      if cid = "" then (.raised (.playlabValidationError noConversationMsg), [])
      else
        match streamMessageLoop ls "" [] with
        | .ok c chunks => (.ok c, chunks)
        | .exc _ chunks e => (.raised e, chunks) := rfl

lemma stream_message_drop (cid : String) (ls : List String) (emsg : String) :
    stream_message cid (.linesThenDrop ls emsg) =
      if cid = "" then (.raised (.playlabValidationError noConversationMsg), [])
      else
        match streamMessageLoop ls "" [] with
        | .ok _ chunks =>
          (.raised (.playlabAPIError ("Failed to stream message: " ++ emsg) none none), chunks)
        | .exc _ chunks e => (.raised e, chunks) := rfl

lemma send_message_lines (cid : String) (stream : Bool) (ls : List String) :
    send_message cid stream (.lines ls) =
      if cid = "" then .raised (.playlabValidationError noConversationMsg)
      else
        match (if stream then sendStreamLoop ls "" else sendCollectLoop ls "") with
        | .ok c => .ok c
        | .exc _ e => .raised e := rfl

lemma streamLoop_ok_spec (ls : List String) (c : String) (chunks : List String)
    (h : streamMessageLoop ls "" [] = .ok c chunks) :
    c = specConcatDeltas ls ∧ chunks = ls.filterMap specDeltaOfLine := by
  obtain ⟨h1, h2⟩ := streamMessageLoop_ok ls "" c [] chunks h
  rw [String.empty_append] at h1
  rw [List.nil_append] at h2
  exact ⟨h1, h2⟩

lemma sendStreamLoop_ok_spec (ls : List String) (c : String)
    (h : sendStreamLoop ls "" = .ok c) : c = specConcatDeltas ls := by
  rw [sendStreamLoop_eq_stream ls "" []] at h
  cases ho : streamMessageLoop ls "" [] with
  | ok c2 chunks2 =>
    rw [ho] at h
    simp only [contentOutcome, SendOutcome.ok.injEq] at h
    obtain ⟨h1, _⟩ := streamLoop_ok_spec ls c2 chunks2 ho
    rw [← h, h1]
  | exc c2 chunks2 e =>
    rw [ho] at h
    simp [contentOutcome] at h

/-- C1: when a streaming send (stream_message, or send_message with
stream=True) returns, the returned content is the concatenation, in
input order, of the delta field of every line that begins with data:
and whose remainder decodes to a JSON object with a non-empty delta;
blank lines, lines not beginning with data:, lines with undecodable
JSON after the prefix, and decoded objects without a delta key
contribute zero characters. -/
theorem streaming_content_eq_specConcat (cid : String) (ls : List String)
    (c : String) (chunks : List String) :
    (stream_message cid (.lines ls) = (.ok c, chunks) → c = specConcatDeltas ls)
    ∧ (send_message cid true (.lines ls) = .ok c → c = specConcatDeltas ls) := by
  constructor
  · intro h
    rw [stream_message_lines] at h
    by_cases hc : cid = ""
    · rw [if_pos hc] at h
      simp at h
    · rw [if_neg hc] at h
      cases ho : streamMessageLoop ls "" [] with
      | ok c2 chunks2 =>
        rw [ho] at h
        simp only [Prod.mk.injEq, CallResult.ok.injEq] at h
        rw [← h.1]
        exact (streamLoop_ok_spec ls c2 chunks2 ho).1
      | exc c2 chunks2 e =>
        rw [ho] at h
        simp at h
  · intro h
    rw [send_message_lines] at h
    by_cases hc : cid = ""
    · rw [if_pos hc] at h
      simp at h
    · rw [if_neg hc] at h
      simp only [if_true] at h
      cases ho : sendStreamLoop ls "" with
      | ok c2 =>
        rw [ho] at h
        simp only [CallResult.ok.injEq] at h
        rw [← h]
        exact sendStreamLoop_ok_spec ls c2 ho
      | exc c2 e =>
        rw [ho] at h
        simp at h

/-- C1 witness: a concrete drained stream with a blank line, a
non-data: line, an undecodable payload, a delta-less object and two
contributing deltas returns exactly their concatenation. -/
theorem streaming_content_eq_specConcat_witness :
    stream_message "c1" (.lines ["data: \x7b\"delta\": \"Hi\"\x7d", "", "event: x",
        "data: \x7bbad", "data: \x7b\x7d", "data: \x7b\"delta\": \" there\"\x7d"])
      = (.ok "Hi there", ["Hi", " there"])
    ∧ "Hi there" = specConcatDeltas ["data: \x7b\"delta\": \"Hi\"\x7d", "", "event: x",
        "data: \x7bbad", "data: \x7b\x7d", "data: \x7b\"delta\": \" there\"\x7d"] :=
  ⟨by rfl,
   (streaming_content_eq_specConcat "c1"
      ["data: \x7b\"delta\": \"Hi\"\x7d", "", "event: x",
       "data: \x7bbad", "data: \x7b\x7d", "data: \x7b\"delta\": \" there\"\x7d"]
      "Hi there" ["Hi", " there"]).1 (by rfl)⟩

/-- C2 counterexample: the line data: null is a data: line whose
remainder decodes successfully to a non-dict payload (None); the loop
body then calls .get on it and raises an uncaught AttributeError, so
the parse step does NOT silently ignore every malformed or delta-less
line. -/
theorem processLine_raises_on_nonobject_payload :
    processLine "data: null"
      = .error (.attributeError "NoneType object has no attribute get") := by rfl

/-- C2 (amended): the per-line step raises exactly on the data: lines
whose remainder decodes to a non-object JSON value, or to an object
whose delta is truthy but not a string; every other line — blank,
non-data:, undecodable after the prefix, or an object with an absent,
falsy, or non-empty-string delta — contributes zero or one event and
never raises. -/
theorem processLine_error_iff_unsafe (line : String) :
    isErrorOutcome (processLine line) = !lineSafeB line := by
  unfold processLine lineSafeB deltaShapeOk isErrorOutcome
  by_cases h0 : line = ""
  · subst h0; rfl
  · rw [if_neg h0]
    cases hsw : pyStartsWith line "data:"
    · simp
    · simp only [if_true]
      cases hjl : jsonLoads (pyDrop line 5) with
      | none => simp
      | some v =>
        cases v with
        | obj members =>
          cases hg : objGet members "delta" with
          | none => simp [hg]
          | some w =>
            cases hpt : pyTruthy w with
            | false => simp [hg, hpt]
            | true => cases w <;> simp [hg, hpt]
        | null => simp
        | bool b => simp
        | num n => simp
        | fnum q => simp
        | nan => simp
        | inf neg => simp
        | str t => simp
        | arr xs => simp

/-- C4: when stream_message returns after draining its lines, the
on_chunk callback was invoked exactly once per successfully-decoded
delta, in arrival order, with the exact delta string, and the
concatenation of all callback arguments equals the returned text. -/
theorem on_chunk_matches_result (cid : String) (ls : List String) (c : String)
    (chunks : List String) :
    stream_message cid (.lines ls) = (.ok c, chunks) →
    chunks = ls.filterMap specDeltaOfLine ∧ concatList chunks = c := by
  intro h
  rw [stream_message_lines] at h
  by_cases hc : cid = ""
  · rw [if_pos hc] at h
    simp at h
  · rw [if_neg hc] at h
    cases ho : streamMessageLoop ls "" [] with
    | ok c2 chunks2 =>
      rw [ho] at h
      simp only [Prod.mk.injEq, CallResult.ok.injEq] at h
      obtain ⟨h1, h2⟩ := streamLoop_ok_spec ls c2 chunks2 ho
      refine ⟨by rw [← h.2, h2], ?_⟩
      rw [← h.1, ← h.2, h1, h2]
      rfl
    | exc c2 chunks2 e =>
      rw [ho] at h
      simp at h

/-- C4 witness: a concrete run where the callback receives exactly the
two deltas in order and their concatenation is the returned text. -/
theorem on_chunk_matches_result_witness :
    stream_message "c2" (.lines ["data: \x7b\"delta\": \"ab\"\x7d", "x",
        "data: \x7b\"delta\": \"cd\"\x7d"]) = (.ok "abcd", ["ab", "cd"])
    ∧ ["ab", "cd"] = ["data: \x7b\"delta\": \"ab\"\x7d", "x",
        "data: \x7b\"delta\": \"cd\"\x7d"].filterMap specDeltaOfLine
    ∧ concatList ["ab", "cd"] = "abcd" :=
  ⟨by rfl,
   (on_chunk_matches_result "c2"
      ["data: \x7b\"delta\": \"ab\"\x7d", "x", "data: \x7b\"delta\": \"cd\"\x7d"]
      "abcd" ["ab", "cd"] (by rfl)).1,
   (on_chunk_matches_result "c2"
      ["data: \x7b\"delta\": \"ab\"\x7d", "x", "data: \x7b\"delta\": \"cd\"\x7d"]
      "abcd" ["ab", "cd"] (by rfl)).2⟩

/-- C7: for the same response lines, the send_message stream=False loop
computes exactly what the stream=True loop computes, both agree with
the stream_message loop's content, and the whole text-path call returns
the same result either way — the two modes differ only in when display
and callback happen. -/
theorem send_nonstream_eq_stream (ls : List String) (acc : String)
    (chunks : List String) (cid : String) (t : TransportEvent) :
    sendStreamLoop ls acc = sendCollectLoop ls acc
    ∧ contentOutcome (streamMessageLoop ls acc chunks) = sendStreamLoop ls acc
    ∧ send_message cid true t = send_message cid false t := by
  refine ⟨(sendCollectLoop_eq_streamLoop ls acc).symm,
    (sendStreamLoop_eq_stream ls acc chunks).symm, ?_⟩
  unfold send_message
  by_cases hc : cid = ""
  · rw [if_pos hc, if_pos hc]
  · rw [if_neg hc, if_neg hc]
    cases t with
    | lines ls2 => simp [sendCollectLoop_eq_streamLoop]
    | linesThenDrop ls2 emsg => simp [sendCollectLoop_eq_streamLoop]
    | httpError status m => rfl
    | connError emsg => rfl

/-- C3 counterexample: after two deltas are delivered and the
connection drops, the call raises the PlaylabAPIError built from the
exception message alone — with no status code, no response, and the
accumulated text "Hi there" (which the loop had fully assembled and
which was therefore available) nowhere in what the error carries.  The
claim's "carrying whatever accumulated text ... is available" fails. -/
theorem transfer_error_discards_accumulated_text :
    (stream_message "c1" (.linesThenDrop
        ["data: \x7b\"delta\": \"Hi\"\x7d", "data: \x7b\"delta\": \" there\"\x7d"]
        "Connection broken")).1
      = .raised (.playlabAPIError "Failed to stream message: Connection broken" none none)
    ∧ streamMessageLoop
        ["data: \x7b\"delta\": \"Hi\"\x7d", "data: \x7b\"delta\": \" there\"\x7d"] "" []
      = .ok "Hi there" ["Hi", " there"]
    ∧ hasSubstr "Hi there".data "Failed to stream message: Connection broken".data = false :=
  ⟨by rfl, by rfl, by rfl⟩

/-- C3 (amended): a transfer-level failure — connection error, non-2xx
status, or a drop during streaming — always makes stream_message raise
a typed error and never return, even when text had accumulated; but the
PlaylabAPIError raised for a mid-stream drop carries only the exception
message, with no status and no accumulated text attached. -/
theorem transfer_error_never_returns (cid : String) (ls : List String)
    (emsg m : String) (status : Nat) (c : String) (chunks : List String)
    (hc : cid ≠ "") :
    ((stream_message cid (.connError emsg)).1 ≠ .ok c)
    ∧ ((stream_message cid (.httpError status m)).1 ≠ .ok c)
    ∧ ((stream_message cid (.linesThenDrop ls emsg)).1 ≠ .ok c)
    ∧ ((stream_message cid (.connError emsg)).1
        = .raised (.playlabAPIError ("Failed to stream message: " ++ emsg) none none))
    ∧ (streamMessageLoop ls "" [] = .ok c chunks →
        (stream_message cid (.linesThenDrop ls emsg)).1
          = .raised (.playlabAPIError ("Failed to stream message: " ++ emsg) none none)) := by
  have hconn : (stream_message cid (.connError emsg)).1
      = .raised (.playlabAPIError ("Failed to stream message: " ++ emsg) none none) := by
    unfold stream_message
    rw [if_neg hc]
  have hhttp : (stream_message cid (.httpError status m)).1
      = .raised (handle_api_error status m) := by
    unfold stream_message
    rw [if_neg hc]
  refine ⟨?_, ?_, ?_, hconn, ?_⟩
  · rw [hconn]; simp
  · rw [hhttp]; simp
  · rw [stream_message_drop, if_neg hc]
    cases ho : streamMessageLoop ls "" [] <;> simp
  · intro hok
    rw [stream_message_drop, if_neg hc, hok]

/-- C3 witness: concrete instantiation at a two-delta stream followed
by a drop. -/
theorem transfer_error_never_returns_witness :
    ("c1" : String) ≠ ""
    ∧ streamMessageLoop ["data: \x7b\"delta\": \"par\"\x7d", "data: \x7b\"delta\": \"tial\"\x7d"] "" []
        = .ok "partial" ["par", "tial"]
    ∧ (stream_message "c1" (.linesThenDrop
          ["data: \x7b\"delta\": \"par\"\x7d", "data: \x7b\"delta\": \"tial\"\x7d"] "drop")).1
        = .raised (.playlabAPIError ("Failed to stream message: " ++ "drop") none none) :=
  ⟨by decide, by rfl,
   (transfer_error_never_returns "c1"
      ["data: \x7b\"delta\": \"par\"\x7d", "data: \x7b\"delta\": \"tial\"\x7d"]
      "drop" "m" 500 "partial" ["par", "tial"] (by decide)).2.2.2.2 (by rfl)⟩

/-- C5: the two message-sending functions do NOT post to the same URL.
send_message concatenates BASE_URL with the endpoint, keeping the /api/v1
base path, as the claim states; stream_message instead passes the
slash-leading endpoint to urljoin, which discards the base URL's whole
path, so its POST goes to a URL missing /api/v1 — the code diverges
from the claimed endpoint pattern. -/
theorem urljoin_drops_base_path :
    streamMessageUrl "p" "c" = "https://www.playlab.ai/projects/p/conversations/c/messages"
    ∧ sendMessageUrl "p" "c" = "https://www.playlab.ai/api/v1/projects/p/conversations/c/messages"
    ∧ streamMessageUrl "p" "c" ≠ BASE_URL ++ messagesEndpoint "p" "c" :=
  ⟨by rfl, by rfl, by decide⟩

/-- Does this listing result consist of a raised PlaylabValidationError? -/
def raisesValidationError (r : Except PyExc (List Message) × Nat) : Bool :=
  match r.1 with
  | .error (.playlabValidationError _) => true
  | _ => false

/-- C6 counterexample: with an empty conversation id, list_messages
raises the BUILTIN ValueError, not the typed PlaylabValidationError the
claim says every conversation-requiring operation raises. -/
theorem list_messages_raises_builtin_valueError :
    (list_messages "" (.ok [])).1 = .error (.valueError noConversationMsg)
    ∧ raisesValidationError (list_messages "" (.ok [])) = false :=
  ⟨by rfl, by rfl⟩

/-- C6 (amended): with a missing/empty conversation id, send_message,
stream_message and display_system_prompt raise PlaylabValidationError
before issuing any request; list_messages also fails before issuing any
request, but with the builtin ValueError instead of the typed
PlaylabValidationError. -/
theorem empty_conversation_guards (t : TransportEvent) (stream : Bool)
    (resp : Except PyExc (List Message)) :
    (stream_message "" t).1 = .raised (.playlabValidationError noConversationMsg)
    ∧ send_message "" stream t = .raised (.playlabValidationError noConversationMsg)
    ∧ display_system_prompt "" resp = (some (.playlabValidationError noConversationMsg), 0)
    ∧ list_messages "" resp = (.error (.valueError noConversationMsg), 0) :=
  ⟨by rfl, by rfl, by rfl, by rfl⟩

/-- C8: two streaming calls from two independent client instances are
isolated.  For EVERY interleaving of the two calls' input lines over
the joint state, each call's final state equals the sequential run of
that call's own line sequence alone — its accumulated and returned text
is a function only of its own input, so neither run can observe or
corrupt the other's accumulator; and the sequential run is exactly the
stream_message drain loop. -/
theorem streaming_calls_isolated (sched : List (Bool × String)) (st : PairState)
    (ls : List String) :
    (runPair st sched).c1 = runCall st.c1 (sideLines false sched)
    ∧ (runPair st sched).c2 = runCall st.c2 (sideLines true sched)
    ∧ streamMessageLoop ls "" [] = outcomeOfCall (runCall initCall ls) := by
  obtain ⟨h1, h2⟩ := runPair_proj sched st
  exact ⟨h1, h2, (outcomeOf_runCall ls initCall rfl).symm⟩

/-- C9: a data: line whose remainder decodes to a JSON object in which
delta is present but falsy (empty string, 0, false, null, ...) is
processed to nothing: the per-line step skips it — no accumulation, no
callback, no error — and the drain loop is unchanged by it, exactly as
for an absent delta key. -/
theorem falsy_delta_is_skipped (line : String) (members : List (String × JsonValue))
    (v : JsonValue) (h0 : line ≠ "") (hsw : pyStartsWith line "data:" = true)
    (hjl : jsonLoads (pyDrop line 5) = some (.obj members))
    (hg : objGet members "delta" = some v) (hv : pyTruthy v = false) :
    processLine line = .skip
    ∧ ∀ (ls : List String) (acc : String) (chunks : List String),
        streamMessageLoop (line :: ls) acc chunks = streamMessageLoop ls acc chunks := by
  have hskip : processLine line = .skip := by
    unfold processLine
    rw [if_neg h0, hsw]
    simp only [if_true, hjl, hg, hv]
    rfl
  refine ⟨hskip, ?_⟩
  intro ls acc chunks
  simp only [streamMessageLoop, hskip]

/-- C9 witness: concrete falsy-delta lines (empty string, 0, false,
null) are all skipped and leave a concrete loop run unchanged. -/
theorem falsy_delta_is_skipped_witness :
    jsonLoads (pyDrop "data: \x7b\"delta\": \"\"\x7d" 5) = some (.obj [("delta", .str "")])
    ∧ pyTruthy (.str "") = false
    ∧ processLine "data: \x7b\"delta\": \"\"\x7d" = .skip
    ∧ processLine "data: \x7b\"delta\": 0\x7d" = .skip
    ∧ processLine "data: \x7b\"delta\": false\x7d" = .skip
    ∧ processLine "data: \x7b\"delta\": null\x7d" = .skip
    ∧ streamMessageLoop ["data: \x7b\"delta\": \"\"\x7d", "data: \x7b\"delta\": \"ok\"\x7d"] "" []
        = streamMessageLoop ["data: \x7b\"delta\": \"ok\"\x7d"] "" [] :=
  ⟨by rfl, by rfl,
   (falsy_delta_is_skipped "data: \x7b\"delta\": \"\"\x7d" [("delta", .str "")] (.str "")
      (by decide) (by rfl) (by rfl) (by rfl) (by rfl)).1,
   (falsy_delta_is_skipped "data: \x7b\"delta\": 0\x7d" [("delta", .num 0)] (.num 0)
      (by decide) (by rfl) (by rfl) (by rfl) (by rfl)).1,
   (falsy_delta_is_skipped "data: \x7b\"delta\": false\x7d" [("delta", .bool false)] (.bool false)
      (by decide) (by rfl) (by rfl) (by rfl) (by rfl)).1,
   (falsy_delta_is_skipped "data: \x7b\"delta\": null\x7d" [("delta", .null)] .null
      (by decide) (by rfl) (by rfl) (by rfl) (by rfl)).1,
   (falsy_delta_is_skipped "data: \x7b\"delta\": \"\"\x7d" [("delta", .str "")] (.str "")
      (by decide) (by rfl) (by rfl) (by rfl) (by rfl)).2
     ["data: \x7b\"delta\": \"ok\"\x7d"] "" []⟩

/-- C10: load_conversation and reset_chat overwrite the conversation id
before the follow-up listing completes: when the listing raises a
PlaylabAPIError the id stays set to the new value (no rollback), the
error is re-raised wrapped, and load_conversation with verbose=False
issues no request at all and accepts any non-empty id. -/
theorem conversation_id_not_rolled_back (st : ClientState) (cid newId m : String)
    (sc : Option Nat) (r : Option String) (resp : Except PyExc (List Message))
    (hc : cid ≠ "") (hn : newId ≠ "") :
    load_conversation st true cid (.error (.playlabAPIError m sc r))
      = (⟨cid⟩, some (.playlabAPIError ("Failed to load conversation: " ++ m) none none), 1)
    ∧ load_conversation st false cid resp = (⟨cid⟩, none, 0)
    ∧ reset_chat st (.ok newId) (.error (.playlabAPIError m sc r))
      = (⟨newId⟩, some (.playlabAPIError ("Failed to reset chat: " ++ m) none none)) := by
  refine ⟨?_, ?_, ?_⟩
  · unfold load_conversation
    rw [if_neg hc]
    simp [list_messages, hc]
  · unfold load_conversation
    rw [if_neg hc]
    simp
  · unfold reset_chat
    simp [list_messages, hn]

/-- C10 witness: concrete states and a concrete listing failure. -/
theorem conversation_id_not_rolled_back_witness :
    ("conv-2" : String) ≠ ""
    ∧ load_conversation ⟨"conv-1"⟩ true "conv-2" (.error (.playlabAPIError "boom" (some 500) none))
        = (⟨"conv-2"⟩, some (.playlabAPIError ("Failed to load conversation: " ++ "boom") none none), 1)
    ∧ load_conversation ⟨"conv-1"⟩ false "conv-2" (.ok [])
        = (⟨"conv-2"⟩, none, 0)
    ∧ reset_chat ⟨"conv-1"⟩ (.ok "conv-3") (.error (.playlabAPIError "boom" (some 500) none))
        = (⟨"conv-3"⟩, some (.playlabAPIError ("Failed to reset chat: " ++ "boom") none none)) :=
  ⟨by decide,
   (conversation_id_not_rolled_back ⟨"conv-1"⟩ "conv-2" "conv-3" "boom" (some 500) none (.ok [])
      (by decide) (by decide)).1,
   (conversation_id_not_rolled_back ⟨"conv-1"⟩ "conv-2" "conv-3" "boom" (some 500) none (.ok [])
      (by decide) (by decide)).2.1,
   (conversation_id_not_rolled_back ⟨"conv-1"⟩ "conv-2" "conv-3" "boom" (some 500) none (.ok [])
      (by decide) (by decide)).2.2⟩

end Playlab
